import Mathlib

/-!
Verification of the chat client in `src/src/App.tsx` (zkulik-bot.github.io).

The file shallowly embeds the state-bearing parts of the React component:
the session store (`handleNewChat`, `handleDeleteChat`, the chat-initialization
effect), the document store (`handleFileUpload`, `handleRemoveDocument`),
the conversation engine (`executeSend`) and the voice-command recognition
handler (`recognition.onresult`).  React `setState` calls are modelled as
sequential functional updates on an explicit state record; network calls to
the OpenAI API are modelled by outcome parameters (`ApiResult`) supplied to
the embedded function, and the trace of side effects (alerts, network calls,
speech-synthesis requests) is returned alongside the new state.
-/

namespace ZkulikBot

/-- Roles of `Message.role` in App.tsx: `'user' | 'assistant' | 'system'`. -/
inductive Role where
  | user
  | assistant
  | system
deriving DecidableEq, Repr

/-- The source `interface Message` with fields `role` and `content`. -/
structure Message where
  role : Role
  content : String
deriving DecidableEq, Repr

/-- The source `interface Chat` with fields `id`, `title` and `messages`. -/
structure Chat where
  id : String
  title : String
  messages : List Message
deriving DecidableEq, Repr

/-- The source `interface LoadedDocument` with fields `name` and `content`. -/
structure LoadedDocument where
  name : String
  content : String
deriving DecidableEq, Repr

/-- The component state relevant to the session store and conversation
engine: `chats`, `activeChatId`, `input`, `isLoading`, `apiKey`. -/
structure AppState where
  chats : List Chat
  activeChatId : Option String
  input : String
  isLoading : Bool
  apiKey : String
deriving DecidableEq, Repr

/-- The ids of the chats in the list, in list order. -/
def chatIds (chats : List Chat) : List String :=
  chats.map (·.id)

/-- Function `handleNewChat`: prepend a fresh chat (placeholder title, empty
messages) and make it active.  The source draws `id` from
`Date.now().toString()`; here it is a parameter. -/
def handleNewChat (id : String) (st : AppState) : AppState :=
  { st with
    chats := ⟨id, "New Chat", []⟩ :: st.chats
    activeChatId := some id }

/-- Function `handleDeleteChat`: remove the chat with `chatId`; if it was the active
one, activate the head of the remaining list (`remainingChats[0].id`), or
none if the remainder is empty. -/
def handleDeleteChat (chatId : String) (st : AppState) : AppState :=
  let remaining := st.chats.filter (fun c => c.id ≠ chatId)
  { st with
    chats := remaining
    activeChatId :=
      if st.activeChatId = some chatId then
        match remaining with
        | [] => none
        | c :: _ => some c.id
      else st.activeChatId }

/-- The session-store invariant: chat ids are distinct, the active id (when
set) names a chat in the list, and the active id is unset exactly when the
list is empty. -/
def StoreValid (st : AppState) : Prop :=
  (chatIds st.chats).Nodup ∧
    match st.activeChatId with
    | none => st.chats = []
    | some a => a ∈ chatIds st.chats

instance (st : AppState) : Decidable (StoreValid st) := by
  unfold StoreValid
  cases st.activeChatId <;> exact inferInstance

/-- Session-store operations, as issued by the UI. -/
inductive SessionOp where
  | create (id : String)
  | delete (id : String)
deriving DecidableEq, Repr

/-- Apply one session-store operation. -/
def applySessionOp (st : AppState) : SessionOp → AppState
  | .create id => handleNewChat id st
  | .delete id => handleDeleteChat id st

/-- Execution of a sequence of session-store operations.  A `create` step
carries the freshness of its id (in the source, ids are `Date.now()`
timestamps of distinct creations). -/
inductive Steps : AppState → List SessionOp → AppState → Prop where
  | nil (st : AppState) : Steps st [] st
  | create {st st' : AppState} {id : String} {ops : List SessionOp}
      (hfresh : id ∉ chatIds st.chats)
      (htail : Steps (applySessionOp st (.create id)) ops st') :
      Steps st (.create id :: ops) st'
  | delete {st st' : AppState} {id : String} {ops : List SessionOp}
      (htail : Steps (applySessionOp st (.delete id)) ops st') :
      Steps st (.delete id :: ops) st'

theorem chatIds_handleNewChat (id : String) (st : AppState) :
    chatIds (handleNewChat id st).chats = id :: chatIds st.chats := by
  simp [handleNewChat, chatIds]

theorem storeValid_handleNewChat {st : AppState} (hv : StoreValid st)
    {id : String} (hfresh : id ∉ chatIds st.chats) :
    StoreValid (handleNewChat id st) := by
  obtain ⟨hnd, _⟩ := hv
  refine ⟨?_, ?_⟩
  · rw [chatIds_handleNewChat]
    exact List.nodup_cons.mpr ⟨hfresh, hnd⟩
  · simp [handleNewChat, chatIds]

theorem chatIds_filter_sublist (chats : List Chat) (chatId : String) :
    List.Sublist (chatIds (chats.filter (fun c => c.id ≠ chatId))) (chatIds chats) := by
  exact List.Sublist.map _ (List.filter_sublist chats)

theorem storeValid_handleDeleteChat {st : AppState} (hv : StoreValid st)
    (chatId : String) : StoreValid (handleDeleteChat chatId st) := by
  obtain ⟨hnd, hact⟩ := hv
  constructor
  · exact List.Nodup.sublist (chatIds_filter_sublist st.chats chatId) hnd
  · unfold handleDeleteChat
    simp only
    by_cases hc : st.activeChatId = some chatId
    · simp only [hc, if_pos rfl]
      cases hrem : st.chats.filter (fun c => c.id ≠ chatId) with
      | nil => simp [hrem]
      | cons c rest =>
        simp only [hrem, chatIds]
        exact List.mem_map_of_mem _ (by simp)
    · simp only [if_neg hc]
      cases ha : st.activeChatId with
      | none =>
        simp only [ha] at hact
        simp [hact]
      | some a =>
        simp only [ha] at hact hc
        have hne : a ≠ chatId := fun h => hc (by rw [h])
        obtain ⟨c, hcmem, hcid⟩ := List.mem_map.mp hact
        refine List.mem_map.mpr ⟨c, ?_, hcid⟩
        exact List.mem_filter.mpr ⟨hcmem, by simp [hcid, hne]⟩

theorem storeValid_steps {st st' : AppState} {ops : List SessionOp}
    (hv : StoreValid st) (hs : Steps st ops st') : StoreValid st' := by
  induction hs with
  | nil => exact hv
  | create hfresh _ ih => exact ih (storeValid_handleNewChat hv hfresh)
  | delete _ ih => exact ih (storeValid_handleDeleteChat hv _)

/-- From distinct ids: at most one chat in the list bears the active id. -/
theorem activeCount_le_one {st : AppState} (hv : StoreValid st) :
    (st.chats.countP (fun c => st.activeChatId = some c.id)) ≤ 1 := by
  obtain ⟨hnd, _⟩ := hv
  cases ha : st.activeChatId with
  | none => simp
  | some a =>
    calc st.chats.countP (fun c => some a = some c.id)
        = st.chats.countP (fun c => c.id == a) := by
          apply List.countP_congr
          intro c _
          simp only [decide_eq_true_eq, Option.some.injEq, beq_iff_eq]
          exact eq_comm
      _ = List.count a (chatIds st.chats) := by
          rw [chatIds, List.count_eq_countP, List.countP_map]
          rfl
      _ ≤ 1 := List.nodup_iff_count_le_one.mp hnd a

/-- The characters of the JS regex class `\s` (ASCII part plus NBSP), used
by `sendCommandRegex` and by `String.prototype.trim`. -/
def jsWhitespace (c : Char) : Bool :=
  c == ' ' || c == '\t' || c == '\n' || c == '\r' ||
    c == Char.ofNat 11 || c == Char.ofNat 12 || c == Char.ofNat 160

/-- JS `String.prototype.trim`: drop leading and trailing whitespace. -/
def jsTrim (s : String) : String :=
  ⟨((s.toList.dropWhile jsWhitespace).reverse.dropWhile jsWhitespace).reverse⟩

/-- The call `.replace(/["\x27]/g, '')` on the title result: drop every double-quote
(code 34) and single-quote (code 39) character. -/
def stripQuotes (s : String) : String :=
  ⟨s.toList.filter (fun c => ¬ (c = Char.ofNat 34 ∨ c = Char.ofNat 39))⟩

/-- The fixed persona system prompt (`systemPrompt` in App.tsx). -/
def systemPrompt : Message :=
  ⟨.system,
    "You are a helpful digital consciousness named Olly that has been created by Zachary Kulik as a demo for the company Olivia."⟩

/-- The separator joining retrieved chunk contents
(`join('\n\n---\n\n')`). -/
def contextSeparator : String := "\n\n---\n\n"

/-- The fixed user-visible fallback appended when the API call throws
(`errorMessageContent` in `executeSend`). -/
def errorMessageContent : String := "Sorry, something went wrong."

/-- Outcome of one OpenAI chat-completions call: `ok content` models a
resolved response whose first choice carries the given (possibly null)
message content; `err` models a rejected or malformed call, which throws at
the `await`. -/
inductive ApiResult where
  | ok (content : Option String)
  | err
deriving DecidableEq, Repr

/-- The expression `titleResponse.choices[0].message.content?.replace(/["\x27]/g, '') ||
'Chat'`: null content or an all-quotes result falls back to "Chat". -/
def titleFromResponse (content : Option String) : String :=
  match content with
  | none => "Chat"
  | some c =>
      let stripped := stripQuotes c
      if stripped = "" then "Chat" else stripped

/-- The `setChats` updater appending a message to every chat bearing the
target id (`prev.map(c => c.id === targetChat.id ? { ...c, messages:
[...c.messages, m] } : c)`). -/
def appendToChat (chatId : String) (m : Message) (chats : List Chat) :
    List Chat :=
  chats.map (fun c =>
    if c.id = chatId then { c with messages := c.messages ++ [m] } else c)

/-- The `setChats` updater renaming the chat bearing the target id. -/
def renameChat (chatId : String) (title : String) (chats : List Chat) :
    List Chat :=
  chats.map (fun c => if c.id = chatId then { c with title := title } else c)

/-- The joined context `relevantDocs.map(doc => doc.pageContent).join('\n\n---\n\n')`, or the
empty string when no retriever is configured (`ragDocs = none`). -/
def contextFromDocs (ragDocs : Option (List String)) : String :=
  match ragDocs with
  | none => ""
  | some docs => String.intercalate contextSeparator docs

/-- The system message chosen for the prompt: the retrieval-context
instruction when the joined context is non-empty (JS truthiness of
`context`), the fixed persona prompt otherwise. -/
def chosenSystemMessage (ragDocs : Option (List String)) : Message :=
  let context := contextFromDocs ragDocs
  if context ≠ "" then
    ⟨.system,
      "Based on the following context, answer the user\x27s question.\n\nContext:\n" ++ context⟩
  else systemPrompt

/-- The observable outcome of one `executeSend` call: the final component
state plus the side-effect trace (alert shown, retriever queried, title and
main completion requests issued, the message list sent to the main request,
texts forwarded to `speak`, and the id of the chat the send targeted). -/
structure SendTrace where
  state : AppState
  alerted : Bool
  ragQueried : Bool
  titleCallMade : Bool
  mainCallMade : Bool
  promptSent : Option (List Message)
  speakCalls : List String
  targetChatId : Option String
deriving DecidableEq, Repr

/-- The `catch` block of `executeSend`: forward the fixed fallback to
`speak` and append it as the assistant turn of the target chat. -/
def runCatch (targetId : String) (st : AppState) : AppState × List String :=
  ({ st with
      chats := appendToChat targetId ⟨.assistant, errorMessageContent⟩ st.chats },
    [errorMessageContent])

/-- Steps 3-5 of `executeSend`: the main completion request and the
`catch`/`finally` handling around it.  On a truthy (non-null, non-empty)
reply content, forward it to `speak` and append it as the assistant turn;
on falsy content do neither; on a thrown call run the catch; always clear
`isLoading`. -/
def runMainPhase (targetChat : Chat) (messagesForApi : List Message)
    (mainOut : ApiResult) (st : AppState) (ragQueried titleCallMade : Bool) :
    SendTrace :=
  match mainOut with
  | .err =>
      let stc := runCatch targetChat.id st
      ⟨{ stc.1 with isLoading := false }, false, ragQueried, titleCallMade,
        true, some messagesForApi, stc.2, some targetChat.id⟩
  | .ok (some s) =>
      if s ≠ "" then
        ⟨{ st with
            chats := appendToChat targetChat.id ⟨.assistant, s⟩ st.chats,
            isLoading := false },
          false, ragQueried, titleCallMade, true, some messagesForApi, [s],
          some targetChat.id⟩
      else
        ⟨{ st with isLoading := false }, false, ragQueried, titleCallMade,
          true, some messagesForApi, [], some targetChat.id⟩
  | .ok none =>
      ⟨{ st with isLoading := false }, false, ragQueried, titleCallMade,
        true, some messagesForApi, [], some targetChat.id⟩

/-- The `try` block of `executeSend`: when this is the session's first
exchange (message count 1 after the user message), issue the title request
first; a thrown title request falls into the same `catch` as the main
request, so the main request is then never issued. -/
def executeSendRequests (targetChat : Chat) (messagesForApi : List Message)
    (titleOut mainOut : ApiResult) (st : AppState) (ragQueried : Bool) :
    SendTrace :=
  if targetChat.messages.length = 1 then
    match titleOut with
    | .err =>
        let stc := runCatch targetChat.id st
        ⟨{ stc.1 with isLoading := false }, false, ragQueried, true, false,
          none, stc.2, some targetChat.id⟩
    | .ok c =>
        let st3 := { st with
          chats := renameChat targetChat.id (titleFromResponse c) st.chats }
        runMainPhase targetChat messagesForApi mainOut st3 ragQueried true
  else
    runMainPhase targetChat messagesForApi mainOut st ragQueried false

/-- Function `executeSend` (App.tsx lines 298-392).  `ragDocs` models the configured
retriever and its reply (`none` = no retriever); `newId` is the
`Date.now()` id drawn when no chat is active; `titleOut`/`mainOut` are the
outcomes of the two completion calls.  Returns `none` exactly when the
non-null assertion `chats.find(c => c.id === activeChatId)!` fails (an
active id naming no chat), which throws. -/
def executeSend (messageContent : String) (ragDocs : Option (List String))
    (newId : String) (titleOut mainOut : ApiResult) (st : AppState) :
    Option SendTrace :=
  if jsTrim messageContent = "" ∨ st.isLoading then
    some ⟨st, false, false, false, false, none, [], none⟩
  else if st.apiKey = "" then
    some ⟨st, true, false, false, false, none, [], none⟩
  else
    let st1 : AppState := { st with input := "", isLoading := true }
    let sysMsg := chosenSystemMessage ragDocs
    let userMessage : Message := ⟨.user, messageContent⟩
    let resolved : Option (AppState × Chat) :=
      match st1.activeChatId with
      | some aid =>
          match st1.chats.find? (fun c => c.id = aid) with
          | some currentChat =>
              let updatedMessages := currentChat.messages ++ [userMessage]
              some ({ st1 with
                  chats := st1.chats.map (fun c =>
                    if c.id = aid then { c with messages := updatedMessages }
                    else c) },
                { currentChat with messages := updatedMessages })
          | none => none
      | none =>
          let targetChat : Chat := ⟨newId, "New Chat", [userMessage]⟩
          some ({ st1 with
              activeChatId := some targetChat.id,
              chats := targetChat :: st1.chats }, targetChat)
    match resolved with
    | none => none
    | some (st2, targetChat) =>
        let messagesForApi := sysMsg :: targetChat.messages
        some (executeSendRequests targetChat messagesForApi titleOut mainOut
          st2 ragDocs.isSome)

/-- The message history of the chat the `executeSend` call targets, before
the user message is appended: the active chat (resolved through the
non-null assertion), or the empty history of the chat about to be
created. -/
def priorMessagesOf (st : AppState) : Option (List Message) :=
  match st.activeChatId with
  | none => some []
  | some aid => (st.chats.find? (fun c => c.id = aid)).map (·.messages)

/-- The id of the chat the `executeSend` call targets. -/
def targetIdOf (st : AppState) (newId : String) : String :=
  match st.activeChatId with
  | none => newId
  | some aid => aid

/-- The message list of the (first) chat bearing the given id. -/
def chatMessages (chats : List Chat) (chatId : String) :
    Option (List Message) :=
  (chats.find? (fun c => c.id = chatId)).map (·.messages)

/-- The title of the (first) chat bearing the given id. -/
def chatTitle (chats : List Chat) (chatId : String) : Option String :=
  (chats.find? (fun c => c.id = chatId)).map (·.title)

/-- The wrapper `handleSend` for UI events (button click; `handleKeyPress`
calls it on the Enter key): it forwards the text to `executeSend`. -/
def handleSend (text : String) (ragDocs : Option (List String))
    (newId : String) (titleOut mainOut : ApiResult) (st : AppState) :
    Option SendTrace :=
  executeSend text ragDocs newId titleOut mainOut st

/-- The regex `sendCommandRegex = /\s(send|sent)$/i` applied via `test` and
`replace(..., '')`: when the utterance ends in one whitespace character
followed by "send" or "sent" (case-insensitive), drop those five final
characters; otherwise no match. -/
def stripSendCommand (s : String) : Option String :=
  match s.toList.reverse with
  | c1 :: c2 :: c3 :: c4 :: w :: rest =>
      let word := [c4.toLower, c3.toLower, c2.toLower, c1.toLower]
      if (word = ['s', 'e', 'n', 'd'] ∨ word = ['s', 'e', 'n', 't']) ∧
          jsWhitespace w then
        some ⟨rest.reverse⟩
      else none
  | _ => none

/-- Handler `recognition.onresult` (App.tsx lines 155-176).  `results` carries one
`(transcript, isFinal)` pair per recognition result and is never empty when
the browser fires the event; `startIdx` is `utteranceStartIndexRef.current`.
Returns the new input-box text, the voice command scheduled through
`setVoiceCommandToSend` (if any), and the new utterance start index. -/
def onResult (results : List (String × Bool)) (startIdx : Nat) :
    String × Option String × Nat :=
  let currentUtterance := String.join ((results.drop startIdx).map (·.1))
  let lastIsFinal :=
    match results.getLast? with
    | some r => r.2
    | none => false
  match lastIsFinal, stripSendCommand currentUtterance with
  | true, some stripped =>
      let messageToSend := jsTrim stripped
      if messageToSend ≠ "" then
        (currentUtterance, some messageToSend, results.length)
      else
        (currentUtterance, none, startIdx)
  | true, none => (currentUtterance, none, startIdx)
  | false, _ => (currentUtterance, none, startIdx)

/-- The effect at App.tsx lines 395-400: a non-null `voiceCommandToSend`
triggers `executeSend` on it (then resets the command state); a null one
does nothing. -/
def voiceCommandEffect (cmd : Option String) (ragDocs : Option (List String))
    (newId : String) (titleOut mainOut : ApiResult) (st : AppState) :
    Option (Option SendTrace) :=
  cmd.map (fun text => executeSend text ragDocs newId titleOut mainOut st)

/-- The active id, when set, names a chat of the list. -/
def ActiveResolves (st : AppState) : Prop :=
  match st.activeChatId with
  | none => True
  | some a => a ∈ chatIds st.chats

instance (st : AppState) : Decidable (ActiveResolves st) := by
  unfold ActiveResolves
  cases st.activeChatId <;> exact inferInstance

theorem storeValid_none_iff {st : AppState} (hv : StoreValid st) :
    st.activeChatId = none ↔ st.chats = [] := by
  obtain ⟨-, hact⟩ := hv
  cases ha : st.activeChatId with
  | none =>
    simp only [ha] at hact
    simp [hact]
  | some a =>
    simp only [ha] at hact
    constructor
    · intro h
      exact absurd h (by simp)
    · intro h
      rw [h] at hact
      simp [chatIds] at hact

theorem storeValid_activeResolves {st : AppState} (hv : StoreValid st) :
    ActiveResolves st := by
  obtain ⟨-, hact⟩ := hv
  unfold ActiveResolves
  cases ha : st.activeChatId with
  | none => trivial
  | some a => simpa only [ha] using hact

theorem find?_map_id_preserving (aid : String) (f : Chat → Chat)
    (hid : ∀ c, (f c).id = c.id) (l : List Chat) :
    (l.map f).find? (fun c => c.id = aid) =
      (l.find? (fun c => c.id = aid)).map f := by
  induction l with
  | nil => rfl
  | cons c rest ih =>
      by_cases h : c.id = aid
      · simp [List.find?_cons, hid c, h]
      · simp [List.find?_cons, hid c, h, ih]

theorem chatMessages_appendToChat (tid : String) (m : Message)
    (chats : List Chat) :
    chatMessages (appendToChat tid m chats) tid =
      (chatMessages chats tid).map (fun ms => ms ++ [m]) := by
  unfold chatMessages appendToChat
  rw [find?_map_id_preserving tid _
    (fun c => by by_cases h : c.id = tid <;> simp [h]) chats]
  cases hf : chats.find? (fun c => c.id = tid) with
  | none => rfl
  | some cc =>
      have hcc : cc.id = tid := by simpa using List.find?_some hf
      simp [hcc]

theorem chatMessages_renameChat (tid tid2 title : String)
    (chats : List Chat) :
    chatMessages (renameChat tid2 title chats) tid = chatMessages chats tid := by
  unfold chatMessages renameChat
  rw [find?_map_id_preserving tid _
    (fun c => by by_cases h : c.id = tid2 <;> simp [h]) chats]
  cases hf : chats.find? (fun c => c.id = tid) with
  | none => rfl
  | some cc => by_cases h : cc.id = tid2 <;> simp [h]

theorem chatMessages_setMessages (aid : String) (updated : List Message)
    (chats : List Chat) (cc : Chat)
    (hf : chats.find? (fun c => c.id = aid) = some cc) :
    chatMessages (chats.map (fun c =>
      if c.id = aid then { c with messages := updated } else c)) aid =
      some updated := by
  unfold chatMessages
  rw [find?_map_id_preserving aid _
    (fun c => by by_cases h : c.id = aid <;> simp [h]) chats, hf]
  have hcc : cc.id = aid := by simpa using List.find?_some hf
  simp [hcc]

theorem chatTitle_appendToChat (tid tid2 : String) (m : Message)
    (chats : List Chat) :
    chatTitle (appendToChat tid2 m chats) tid = chatTitle chats tid := by
  unfold chatTitle appendToChat
  rw [find?_map_id_preserving tid _
    (fun c => by by_cases h : c.id = tid2 <;> simp [h]) chats]
  cases hf : chats.find? (fun c => c.id = tid) with
  | none => rfl
  | some cc => by_cases h : cc.id = tid2 <;> simp [h]

theorem chatTitle_renameChat_self (tid title : String) (chats : List Chat)
    (cc : Chat) (hf : chats.find? (fun c => c.id = tid) = some cc) :
    chatTitle (renameChat tid title chats) tid = some title := by
  unfold chatTitle renameChat
  rw [find?_map_id_preserving tid _
    (fun c => by by_cases h : c.id = tid <;> simp [h]) chats, hf]
  have hcc : cc.id = tid := by simpa using List.find?_some hf
  simp [hcc]

theorem chatTitle_setMessages (aid : String) (updated : List Message)
    (chats : List Chat) :
    chatTitle (chats.map (fun c =>
      if c.id = aid then { c with messages := updated } else c)) aid =
      chatTitle chats aid := by
  unfold chatTitle
  rw [find?_map_id_preserving aid _
    (fun c => by by_cases h : c.id = aid <;> simp [h]) chats]
  cases hf : chats.find? (fun c => c.id = aid) with
  | none => rfl
  | some cc => by_cases h : cc.id = aid <;> simp [h]

theorem runMainPhase_promptSent (targetChat : Chat)
    (messagesForApi : List Message) (mainOut : ApiResult) (st : AppState)
    (rq tc : Bool) :
    (runMainPhase targetChat messagesForApi mainOut st rq tc).promptSent =
      some messagesForApi := by
  cases mainOut with
  | err => rfl
  | ok c =>
      cases c with
      | none => rfl
      | some s => by_cases h : s = "" <;> simp [runMainPhase, h]

theorem priorMessagesOf_active {st : AppState} {aid : String}
    (ha : st.activeChatId = some aid) :
    priorMessagesOf st =
      (st.chats.find? (fun c => c.id = aid)).map (·.messages) := by
  unfold priorMessagesOf
  rw [ha]

theorem priorMessagesOf_noActive {st : AppState}
    (ha : st.activeChatId = none) : priorMessagesOf st = some [] := by
  unfold priorMessagesOf
  rw [ha]

theorem targetIdOf_active {st : AppState} {aid : String} (newId : String)
    (ha : st.activeChatId = some aid) : targetIdOf st newId = aid := by
  unfold targetIdOf
  rw [ha]

theorem targetIdOf_noActive {st : AppState} (newId : String)
    (ha : st.activeChatId = none) : targetIdOf st newId = newId := by
  unfold targetIdOf
  rw [ha]

theorem executeSend_active (msg : String) (ragDocs : Option (List String))
    (newId : String) (titleOut mainOut : ApiResult) (st : AppState)
    (aid : String) (cc : Chat)
    (h1 : jsTrim msg ≠ "") (h2 : st.isLoading = false) (h3 : st.apiKey ≠ "")
    (ha : st.activeChatId = some aid)
    (hf : st.chats.find? (fun c => c.id = aid) = some cc) :
    executeSend msg ragDocs newId titleOut mainOut st =
      some (executeSendRequests
        { cc with messages := cc.messages ++ [⟨.user, msg⟩] }
        (chosenSystemMessage ragDocs :: (cc.messages ++ [⟨.user, msg⟩]))
        titleOut mainOut
        { st with
          input := ""
          isLoading := true
          chats := st.chats.map (fun c =>
            if c.id = aid then { c with messages := cc.messages ++ [⟨.user, msg⟩] }
            else c) }
        ragDocs.isSome) := by
  unfold executeSend
  rw [if_neg (by simp [h1, h2]), if_neg h3]
  simp only [ha, hf]

theorem executeSend_noActive (msg : String) (ragDocs : Option (List String))
    (newId : String) (titleOut mainOut : ApiResult) (st : AppState)
    (h1 : jsTrim msg ≠ "") (h2 : st.isLoading = false) (h3 : st.apiKey ≠ "")
    (ha : st.activeChatId = none) :
    executeSend msg ragDocs newId titleOut mainOut st =
      some (executeSendRequests ⟨newId, "New Chat", [⟨.user, msg⟩]⟩
        (chosenSystemMessage ragDocs :: [⟨.user, msg⟩])
        titleOut mainOut
        { st with
          input := ""
          isLoading := true
          activeChatId := some newId
          chats := ⟨newId, "New Chat", [⟨.user, msg⟩]⟩ :: st.chats }
        ragDocs.isSome) := by
  unfold executeSend
  rw [if_neg (by simp [h1, h2]), if_neg h3]
  simp only [ha]

theorem runMainPhase_err_eq (targetChat : Chat)
    (messagesForApi : List Message) (st : AppState) (rq tc : Bool) :
    runMainPhase targetChat messagesForApi .err st rq tc =
      ⟨{ st with
          chats := appendToChat targetChat.id
            ⟨.assistant, errorMessageContent⟩ st.chats
          isLoading := false },
        false, rq, tc, true, some messagesForApi, [errorMessageContent],
        some targetChat.id⟩ := by
  rfl

theorem runMainPhase_falsy_eq (targetChat : Chat)
    (messagesForApi : List Message) (mainOut : ApiResult) (st : AppState)
    (rq tc : Bool)
    (hmain : mainOut = .ok none ∨ mainOut = .ok (some "")) :
    runMainPhase targetChat messagesForApi mainOut st rq tc =
      ⟨{ st with isLoading := false }, false, rq, tc, true,
        some messagesForApi, [], some targetChat.id⟩ := by
  rcases hmain with h | h <;> subst h
  · rfl
  · simp [runMainPhase]

theorem runMainPhase_truthy_eq (targetChat : Chat)
    (messagesForApi : List Message) (s : String) (st : AppState)
    (rq tc : Bool) (hs : s ≠ "") :
    runMainPhase targetChat messagesForApi (.ok (some s)) st rq tc =
      ⟨{ st with
          chats := appendToChat targetChat.id ⟨.assistant, s⟩ st.chats
          isLoading := false },
        false, rq, tc, true, some messagesForApi, [s], some targetChat.id⟩ := by
  simp [runMainPhase, hs]

theorem executeSendRequests_titleErr_eq (targetChat : Chat)
    (messagesForApi : List Message) (mainOut : ApiResult) (st : AppState)
    (rq : Bool) (hl : targetChat.messages.length = 1) :
    executeSendRequests targetChat messagesForApi .err mainOut st rq =
      ⟨{ st with
          chats := appendToChat targetChat.id
            ⟨.assistant, errorMessageContent⟩ st.chats
          isLoading := false },
        false, rq, true, false, none, [errorMessageContent],
        some targetChat.id⟩ := by
  unfold executeSendRequests
  rw [if_pos hl]
  rfl

theorem executeSendRequests_titleOk_eq (targetChat : Chat)
    (messagesForApi : List Message) (c : Option String) (mainOut : ApiResult)
    (st : AppState) (rq : Bool) (hl : targetChat.messages.length = 1) :
    executeSendRequests targetChat messagesForApi (.ok c) mainOut st rq =
      runMainPhase targetChat messagesForApi mainOut
        { st with
          chats := renameChat targetChat.id (titleFromResponse c) st.chats }
        rq true := by
  unfold executeSendRequests
  rw [if_pos hl]

theorem executeSendRequests_notFirst_eq (targetChat : Chat)
    (messagesForApi : List Message) (titleOut mainOut : ApiResult)
    (st : AppState) (rq : Bool) (hl : ¬ targetChat.messages.length = 1) :
    executeSendRequests targetChat messagesForApi titleOut mainOut st rq =
      runMainPhase targetChat messagesForApi mainOut st rq false := by
  unfold executeSendRequests
  rw [if_neg hl]

theorem runMainPhase_calls (targetChat : Chat) (messagesForApi : List Message)
    (mainOut : ApiResult) (st : AppState) (rq tc : Bool) :
    (runMainPhase targetChat messagesForApi mainOut st rq tc).titleCallMade = tc ∧
      (runMainPhase targetChat messagesForApi mainOut st rq tc).mainCallMade = true := by
  cases mainOut with
  | err => exact ⟨rfl, rfl⟩
  | ok c =>
      cases c with
      | none => exact ⟨rfl, rfl⟩
      | some s => by_cases h : s = "" <;> simp [runMainPhase, h]

theorem executeSendRequests_mainErr_trace (targetChat : Chat)
    (messagesForApi : List Message) (titleOut : ApiResult) (st : AppState)
    (rq : Bool) (ms : List Message) (tid : String)
    (htid : targetChat.id = tid)
    (hm : chatMessages st.chats tid = some ms) :
    chatMessages (executeSendRequests targetChat messagesForApi titleOut
        .err st rq).state.chats tid =
        some (ms ++ [⟨.assistant, errorMessageContent⟩]) ∧
      (executeSendRequests targetChat messagesForApi titleOut
        .err st rq).speakCalls = [errorMessageContent] ∧
      (executeSendRequests targetChat messagesForApi titleOut
        .err st rq).state.isLoading = false := by
  subst htid
  by_cases hl : targetChat.messages.length = 1
  · cases titleOut with
    | err =>
        rw [executeSendRequests_titleErr_eq _ _ _ _ _ hl]
        refine ⟨?_, rfl, rfl⟩
        rw [chatMessages_appendToChat, hm]
        rfl
    | ok c =>
        rw [executeSendRequests_titleOk_eq _ _ _ _ _ _ hl,
          runMainPhase_err_eq]
        refine ⟨?_, rfl, rfl⟩
        rw [chatMessages_appendToChat, chatMessages_renameChat, hm]
        rfl
  · rw [executeSendRequests_notFirst_eq _ _ _ _ _ _ hl, runMainPhase_err_eq]
    refine ⟨?_, rfl, rfl⟩
    rw [chatMessages_appendToChat, hm]
    rfl

theorem executeSendRequests_falsyContent_trace (targetChat : Chat)
    (messagesForApi : List Message) (titleOut mainOut : ApiResult)
    (st : AppState) (rq : Bool) (ms : List Message) (tid : String)
    (htid : targetChat.id = tid)
    (hm : chatMessages st.chats tid = some ms)
    (ht : targetChat.messages.length = 1 → titleOut ≠ .err)
    (hmain : mainOut = .ok none ∨ mainOut = .ok (some "")) :
    chatMessages (executeSendRequests targetChat messagesForApi titleOut
        mainOut st rq).state.chats tid = some ms ∧
      (executeSendRequests targetChat messagesForApi titleOut
        mainOut st rq).speakCalls = [] ∧
      (executeSendRequests targetChat messagesForApi titleOut
        mainOut st rq).state.isLoading = false ∧
      (executeSendRequests targetChat messagesForApi titleOut
        mainOut st rq).mainCallMade = true := by
  subst htid
  by_cases hl : targetChat.messages.length = 1
  · cases titleOut with
    | err => exact absurd rfl (ht hl)
    | ok c =>
        rw [executeSendRequests_titleOk_eq _ _ _ _ _ _ hl,
          runMainPhase_falsy_eq _ _ _ _ _ _ hmain]
        refine ⟨?_, rfl, rfl, rfl⟩
        rw [chatMessages_renameChat]
        exact hm
  · rw [executeSendRequests_notFirst_eq _ _ _ _ _ _ hl,
      runMainPhase_falsy_eq _ _ _ _ _ _ hmain]
    exact ⟨hm, rfl, rfl, rfl⟩

theorem executeSendRequests_promptSent (targetChat : Chat)
    (messagesForApi : List Message) (titleOut mainOut : ApiResult)
    (st : AppState) (rq : Bool)
    (ht : targetChat.messages.length = 1 → titleOut ≠ .err) :
    (executeSendRequests targetChat messagesForApi titleOut mainOut
      st rq).promptSent = some messagesForApi := by
  unfold executeSendRequests
  by_cases hl : targetChat.messages.length = 1
  · rw [if_pos hl]
    cases titleOut with
    | err => exact absurd rfl (ht hl)
    | ok c => exact runMainPhase_promptSent _ _ _ _ _ _
  · rw [if_neg hl]
    exact runMainPhase_promptSent _ _ _ _ _ _

theorem executeSendRequests_titleMade (targetChat : Chat)
    (messagesForApi : List Message) (titleOut mainOut : ApiResult)
    (st : AppState) (rq : Bool)
    (hl : targetChat.messages.length = 1) :
    (executeSendRequests targetChat messagesForApi titleOut mainOut
      st rq).titleCallMade = true := by
  unfold executeSendRequests
  rw [if_pos hl]
  cases titleOut with
  | err => rfl
  | ok c => exact (runMainPhase_calls _ _ _ _ _ _).1

theorem executeSendRequests_titleOk (targetChat : Chat)
    (messagesForApi : List Message) (c : Option String) (mainOut : ApiResult)
    (st : AppState) (rq : Bool) (cc : Chat) (tid : String)
    (htid : targetChat.id = tid)
    (hl : targetChat.messages.length = 1)
    (hfind : st.chats.find? (fun ch => ch.id = tid) = some cc) :
    chatTitle (executeSendRequests targetChat messagesForApi (.ok c) mainOut
        st rq).state.chats tid = some (titleFromResponse c) ∧
      (executeSendRequests targetChat messagesForApi (.ok c) mainOut
        st rq).mainCallMade = true := by
  subst htid
  rw [executeSendRequests_titleOk_eq _ _ _ _ _ _ hl]
  refine ⟨?_, (runMainPhase_calls _ _ _ _ _ _).2⟩
  cases mainOut with
  | err =>
      rw [runMainPhase_err_eq]
      rw [chatTitle_appendToChat]
      exact chatTitle_renameChat_self _ _ _ cc hfind
  | ok content =>
      cases content with
      | none =>
          rw [runMainPhase_falsy_eq _ _ _ _ _ _ (Or.inl rfl)]
          exact chatTitle_renameChat_self _ _ _ cc hfind
      | some s =>
          by_cases h : s = ""
          · subst h
            rw [runMainPhase_falsy_eq _ _ _ _ _ _ (Or.inr rfl)]
            exact chatTitle_renameChat_self _ _ _ cc hfind
          · rw [runMainPhase_truthy_eq _ _ _ _ _ _ h]
            rw [chatTitle_appendToChat]
            exact chatTitle_renameChat_self _ _ _ cc hfind

theorem executeSendRequests_titleErr (targetChat : Chat)
    (messagesForApi : List Message) (mainOut : ApiResult) (st : AppState)
    (rq : Bool) (ms : List Message) (tid : String)
    (htid : targetChat.id = tid)
    (hl : targetChat.messages.length = 1)
    (hm : chatMessages st.chats tid = some ms) :
    (executeSendRequests targetChat messagesForApi .err mainOut
        st rq).mainCallMade = false ∧
      (executeSendRequests targetChat messagesForApi .err mainOut
        st rq).promptSent = none ∧
      chatMessages (executeSendRequests targetChat messagesForApi .err mainOut
        st rq).state.chats tid =
        some (ms ++ [⟨.assistant, errorMessageContent⟩]) ∧
      (executeSendRequests targetChat messagesForApi .err mainOut
        st rq).speakCalls = [errorMessageContent] ∧
      (executeSendRequests targetChat messagesForApi .err mainOut
        st rq).state.isLoading = false := by
  subst htid
  rw [executeSendRequests_titleErr_eq _ _ _ _ _ hl]
  refine ⟨rfl, rfl, ?_, rfl, rfl⟩
  rw [chatMessages_appendToChat, hm]
  rfl

end ZkulikBot

namespace ZkulikBot

/-- C5: for all sequences of `createSession`/`deleteSession` operations from
a valid state, at most one session is active at any time, the active id is
`none` exactly when the session list is empty, and when set it names a
session in the list. -/
theorem c5_session_activity_invariant {st st' : AppState} {ops : List SessionOp}
    (hv : StoreValid st) (hs : Steps st ops st') :
    st'.chats.countP (fun c => st'.activeChatId = some c.id) ≤ 1 ∧
      (st'.activeChatId = none ↔ st'.chats = []) ∧ ActiveResolves st' := by
  have hv' := storeValid_steps hv hs
  exact ⟨activeCount_le_one hv', storeValid_none_iff hv', storeValid_activeResolves hv'⟩

/-- Witness for C5 at the empty store and the sequence
create "1"; create "2"; delete "1". -/
theorem c5_session_activity_invariant_witness :
    (applySessionOp (applySessionOp (applySessionOp
        ⟨[], none, "", false, "k"⟩ (.create "1")) (.create "2"))
        (.delete "1")).chats.countP
        (fun c => (applySessionOp (applySessionOp (applySessionOp
          ⟨[], none, "", false, "k"⟩ (.create "1")) (.create "2"))
          (.delete "1")).activeChatId = some c.id) ≤ 1 ∧
      ((applySessionOp (applySessionOp (applySessionOp
        ⟨[], none, "", false, "k"⟩ (.create "1")) (.create "2"))
        (.delete "1")).activeChatId = none ↔
       (applySessionOp (applySessionOp (applySessionOp
        ⟨[], none, "", false, "k"⟩ (.create "1")) (.create "2"))
        (.delete "1")).chats = []) ∧
      ActiveResolves (applySessionOp (applySessionOp (applySessionOp
        ⟨[], none, "", false, "k"⟩ (.create "1")) (.create "2"))
        (.delete "1")) :=
  c5_session_activity_invariant (by decide)
    (Steps.create (by decide) (Steps.create (by decide)
      (Steps.delete (Steps.nil _))))

/-- The chat-initialization effect (App.tsx lines 90-105): parse
`chatbot-chats` from storage (`saved`; `none` models a missing key); if the
parsed list is non-empty, install it and activate the saved active id when it
resolves, else the head's id; otherwise fall through to `handleNewChat()` on
the empty initial state.  Returns the resulting `(chats, activeChatId)`. -/
def initializeChats (saved : Option (List Chat)) (savedActiveId : Option String)
    (newId : String) : List Chat × Option String :=
  match saved with
  | some (c :: rest) =>
      let savedChats := c :: rest
      let activeIdExists :=
        match savedActiveId with
        | some a => savedChats.any (fun ch => ch.id = a)
        | none => false
      (savedChats, if activeIdExists then savedActiveId else some c.id)
  | some [] => ([⟨newId, "New Chat", []⟩], some newId)
  | none => ([⟨newId, "New Chat", []⟩], some newId)

/-- The updater passed to `setLoadedDocuments` in `handleFileUpload`
(App.tsx lines 278-282): keep the previous documents and append only those
new documents whose name is not already present. -/
def uploadDocuments (prevDocs newDocs : List LoadedDocument) :
    List LoadedDocument :=
  let existingNames := prevDocs.map (·.name)
  prevDocs ++ newDocs.filter (fun d => ¬ existingNames.contains d.name)

/-- Function `handleRemoveDocument`: drop every document bearing the given name. -/
def handleRemoveDocument (docNameToRemove : String)
    (docs : List LoadedDocument) : List LoadedDocument :=
  docs.filter (fun doc => doc.name ≠ docNameToRemove)

theorem uploadDocuments_names_nodup {prev batch : List LoadedDocument}
    (hprev : (prev.map (·.name)).Nodup) (hbatch : (batch.map (·.name)).Nodup) :
    ((uploadDocuments prev batch).map (·.name)).Nodup := by
  unfold uploadDocuments
  rw [List.map_append]
  refine List.Nodup.append hprev ?_ ?_
  · exact List.Nodup.sublist (List.Sublist.map _ (List.filter_sublist batch)) hbatch
  · intro n hn1 hn2
    obtain ⟨d, hd, hdn⟩ := List.mem_map.mp hn2
    have hkeep := (List.mem_filter.mp hd).2
    rw [decide_eq_true_eq] at hkeep
    exact hkeep (by simp [hdn, hn1])

theorem uploadDocuments_fresh_single {prev : List LoadedDocument}
    {d : LoadedDocument} (hfresh : d.name ∉ prev.map (·.name)) :
    uploadDocuments prev [d] = prev ++ [d] := by
  simp only [uploadDocuments]
  congr 1
  rw [List.filter_cons]
  simp [hfresh]

theorem uploadDocuments_dup_noop {prev : List LoadedDocument}
    {d : LoadedDocument} (hdup : d.name ∈ prev.map (·.name)) :
    uploadDocuments prev [d] = prev := by
  simp only [uploadDocuments]
  rw [List.filter_cons]
  simp [hdup]

/-- C7: `deleteSession(id)` — deleting the active session activates the new
head of the remaining list (none if it becomes empty); deleting a non-active
existing session leaves the active id unchanged; deleting an absent id is a
no-op on both the list and the active id. -/
theorem c7_deleteSession_cases (st : AppState) (id : String)
    (hv : StoreValid st) :
    (st.activeChatId = some id →
        (handleDeleteChat id st).chats = st.chats.filter (fun c => c.id ≠ id) ∧
        (handleDeleteChat id st).activeChatId =
          ((handleDeleteChat id st).chats.head?).map (·.id)) ∧
      (id ∈ chatIds st.chats → st.activeChatId ≠ some id →
        (handleDeleteChat id st).chats = st.chats.filter (fun c => c.id ≠ id) ∧
        (handleDeleteChat id st).activeChatId = st.activeChatId) ∧
      (id ∉ chatIds st.chats → handleDeleteChat id st = st) := by
  refine ⟨?_, ?_, ?_⟩
  · intro ha
    refine ⟨rfl, ?_⟩
    unfold handleDeleteChat
    simp only [ha, if_pos rfl]
    cases st.chats.filter (fun c => c.id ≠ id) with
    | nil => rfl
    | cons c rest => rfl
  · intro _ hne
    exact ⟨rfl, by simp [handleDeleteChat, hne]⟩
  · intro hid
    have hfilter : st.chats.filter (fun c => c.id ≠ id) = st.chats := by
      apply List.filter_eq_self.mpr
      intro c hc
      have hne : c.id ≠ id := fun h => hid (h ▸ List.mem_map_of_mem _ hc)
      simp [hne]
    have hcond : st.activeChatId ≠ some id := by
      intro h
      obtain ⟨-, hact⟩ := hv
      rw [h] at hact
      exact hid hact
    unfold handleDeleteChat
    simp only [hfilter, if_neg hcond]

/-- Witness for C7 at a concrete two-chat store: deleting the active head,
deleting the non-active second chat, deleting an absent id. -/
theorem c7_deleteSession_cases_witness :
    ((handleDeleteChat "1" ⟨[⟨"1", "t", []⟩, ⟨"2", "u", []⟩], some "1", "",
          false, "k"⟩).chats =
        ([⟨"1", "t", []⟩, ⟨"2", "u", []⟩] : List Chat).filter
          (fun c => c.id ≠ "1") ∧
      (handleDeleteChat "1" ⟨[⟨"1", "t", []⟩, ⟨"2", "u", []⟩], some "1", "",
          false, "k"⟩).activeChatId =
        ((handleDeleteChat "1" ⟨[⟨"1", "t", []⟩, ⟨"2", "u", []⟩], some "1",
          "", false, "k"⟩).chats.head?).map (·.id)) ∧
    ((handleDeleteChat "2" ⟨[⟨"1", "t", []⟩, ⟨"2", "u", []⟩], some "1", "",
          false, "k"⟩).chats =
        ([⟨"1", "t", []⟩, ⟨"2", "u", []⟩] : List Chat).filter
          (fun c => c.id ≠ "2") ∧
      (handleDeleteChat "2" ⟨[⟨"1", "t", []⟩, ⟨"2", "u", []⟩], some "1", "",
          false, "k"⟩).activeChatId = some "1") ∧
    handleDeleteChat "3" ⟨[⟨"1", "t", []⟩, ⟨"2", "u", []⟩], some "1", "",
        false, "k"⟩ =
      ⟨[⟨"1", "t", []⟩, ⟨"2", "u", []⟩], some "1", "", false, "k"⟩ :=
  ⟨(c7_deleteSession_cases
      ⟨[⟨"1", "t", []⟩, ⟨"2", "u", []⟩], some "1", "", false, "k"⟩ "1"
      (by decide)).1 rfl,
   (c7_deleteSession_cases
      ⟨[⟨"1", "t", []⟩, ⟨"2", "u", []⟩], some "1", "", false, "k"⟩ "2"
      (by decide)).2.1 (by decide) (by decide),
   (c7_deleteSession_cases
      ⟨[⟨"1", "t", []⟩, ⟨"2", "u", []⟩], some "1", "", false, "k"⟩ "3"
      (by decide)).2.2 (by decide)⟩

/-- C2 counterexample: with two saved chats and a stored active id `"Z"`
that no longer resolves, rehydration installs the saved list unchanged and
activates its head `"A"`; no fresh session is created, contrary to the
claim's "falls back to creating a fresh session ... exactly when ... the
stored active id no longer resolves to a saved session". -/
theorem c2_rehydrate_counterexample :
    "Z" ∉ chatIds [⟨"A", "tA", [⟨Role.user, "hi"⟩]⟩, ⟨"B", "tB", []⟩] ∧
      initializeChats (some [⟨"A", "tA", [⟨Role.user, "hi"⟩]⟩, ⟨"B", "tB", []⟩])
          (some "Z") "99" =
        ([⟨"A", "tA", [⟨Role.user, "hi"⟩]⟩, ⟨"B", "tB", []⟩], some "A") := by
  decide

/-- C2 (amended): rehydration reproduces the saved list verbatim (identical
session and message ordering); a fresh empty active session is created
exactly when no saved sessions exist (missing key or empty saved list); when
saved sessions exist, the stored active id stays active if it resolves to a
saved session, and otherwise the head of the saved list becomes active. -/
theorem c2_rehydrate_behaviour (savedActiveId : Option String) (newId : String)
    (c : Chat) (rest : List Chat) :
    initializeChats none savedActiveId newId =
        ([⟨newId, "New Chat", []⟩], some newId) ∧
      initializeChats (some []) savedActiveId newId =
        ([⟨newId, "New Chat", []⟩], some newId) ∧
      (initializeChats (some (c :: rest)) savedActiveId newId).1 = c :: rest ∧
      (initializeChats (some (c :: rest)) savedActiveId newId).2 =
        (match savedActiveId with
         | some a =>
             if (c :: rest).any (fun ch => ch.id = a) then some a else some c.id
         | none => some c.id) := by
  refine ⟨rfl, rfl, rfl, ?_⟩
  cases savedActiveId with
  | none => rfl
  | some a => rfl

/-- C8: a newly uploaded document whose name is already present changes
nothing about the entries of that name (existing entry and content win);
uploading a document named "a.txt" twice yields exactly one entry of that
name; and document names stay unique in the store under upload (of a batch
with distinct names, as delivered by the file picker) and removal. -/
theorem c8_upload_dedup (prev batch : List LoadedDocument) (n : String)
    (d1 d2 : LoadedDocument)
    (hprev : (prev.map (·.name)).Nodup)
    (hbatch : (batch.map (·.name)).Nodup)
    (hn : n ∈ prev.map (·.name))
    (h1 : d1.name = "a.txt") (h2 : d2.name = "a.txt")
    (hfresh : "a.txt" ∉ prev.map (·.name)) :
    (uploadDocuments prev batch).filter (fun doc => doc.name = n) =
        prev.filter (fun doc => doc.name = n) ∧
      (uploadDocuments (uploadDocuments prev [d1]) [d2]).countP
          (fun doc => doc.name = "a.txt") = 1 ∧
      ((uploadDocuments prev batch).map (·.name)).Nodup ∧
      ((handleRemoveDocument n (uploadDocuments prev batch)).map (·.name)).Nodup := by
  have hnodup := uploadDocuments_names_nodup hprev hbatch
  refine ⟨?_, ?_, hnodup, ?_⟩
  · unfold uploadDocuments
    rw [List.filter_append]
    have hnil : (batch.filter
        (fun d => ¬ (prev.map (·.name)).contains d.name)).filter
          (fun doc => doc.name = n) = [] := by
      rw [List.filter_eq_nil_iff]
      intro d hd
      have hkeep := (List.mem_filter.mp hd).2
      rw [decide_eq_true_eq] at hkeep
      rw [decide_eq_true_eq]
      intro hdn
      exact hkeep (by simp [hdn, hn])
    rw [hnil, List.append_nil]
  · have hfresh1 : d1.name ∉ prev.map (·.name) := by rw [h1]; exact hfresh
    rw [uploadDocuments_fresh_single hfresh1]
    have hdup : d2.name ∈ (prev ++ [d1]).map (·.name) := by
      rw [List.map_append, List.mem_append]
      right
      simp [h1, h2]
    rw [uploadDocuments_dup_noop hdup, List.countP_append]
    have hzero : prev.countP (fun doc => doc.name = "a.txt") = 0 := by
      rw [List.countP_eq_zero]
      intro d hd
      rw [decide_eq_true_eq]
      intro hdn
      exact hfresh (hdn ▸ List.mem_map_of_mem _ hd)
    rw [hzero]
    simp [h1]
  · exact List.Nodup.sublist
      (List.Sublist.map _ (List.filter_sublist (uploadDocuments prev batch))) hnodup

/-- Witness for C8 at a concrete store and batch. -/
theorem c8_upload_dedup_witness :
    (uploadDocuments [⟨"b.txt", "x"⟩] [⟨"b.txt", "y"⟩, ⟨"c.txt", "z"⟩]).filter
        (fun doc => doc.name = "b.txt") =
        [LoadedDocument.mk "b.txt" "x"].filter (fun doc => doc.name = "b.txt") ∧
      (uploadDocuments (uploadDocuments [⟨"b.txt", "x"⟩] [⟨"a.txt", "1"⟩])
          [⟨"a.txt", "2"⟩]).countP (fun doc => doc.name = "a.txt") = 1 ∧
      ((uploadDocuments [⟨"b.txt", "x"⟩]
          [⟨"b.txt", "y"⟩, ⟨"c.txt", "z"⟩]).map (·.name)).Nodup ∧
      ((handleRemoveDocument "b.txt" (uploadDocuments [⟨"b.txt", "x"⟩]
          [⟨"b.txt", "y"⟩, ⟨"c.txt", "z"⟩])).map (·.name)).Nodup :=
  c8_upload_dedup [⟨"b.txt", "x"⟩] [⟨"b.txt", "y"⟩, ⟨"c.txt", "z"⟩] "b.txt"
    ⟨"a.txt", "1"⟩ ⟨"a.txt", "2"⟩ (by decide) (by decide) (by decide)
    (by decide) (by decide) (by decide)

/-- C4: a send with blank (empty or whitespace-only) text or while a
request is in flight is a silent no-op — state unchanged, no alert, no
retriever query, no network call; a send passing those checks with no API
key configured shows the alert and stops before any network call with state
unchanged. -/
theorem c4_send_guards (msg : String) (ragDocs : Option (List String))
    (newId : String) (titleOut mainOut : ApiResult) (st : AppState) :
    ((jsTrim msg = "" ∨ st.isLoading = true) →
        executeSend msg ragDocs newId titleOut mainOut st =
          some ⟨st, false, false, false, false, none, [], none⟩) ∧
      (jsTrim msg ≠ "" → st.isLoading = false → st.apiKey = "" →
        executeSend msg ragDocs newId titleOut mainOut st =
          some ⟨st, true, false, false, false, none, [], none⟩) := by
  constructor
  · intro h
    unfold executeSend
    rw [if_pos h]
  · intro h1 h2 h3
    unfold executeSend
    rw [if_neg (by simp [h1, h2]), if_pos h3]

/-- Witness for C4: a whitespace-only send and a keyless send at concrete
states. -/
theorem c4_send_guards_witness :
    executeSend "   " none "9" .err .err
        ⟨[⟨"1", "t", []⟩], some "1", "", false, "k"⟩ =
        some ⟨⟨[⟨"1", "t", []⟩], some "1", "", false, "k"⟩, false, false,
          false, false, none, [], none⟩ ∧
      executeSend "hi" none "9" .err .err
        ⟨[⟨"1", "t", []⟩], some "1", "", false, ""⟩ =
        some ⟨⟨[⟨"1", "t", []⟩], some "1", "", false, ""⟩, true, false,
          false, false, none, [], none⟩ :=
  ⟨(c4_send_guards "   " none "9" .err .err _).1 (Or.inl (by decide)),
   (c4_send_guards "hi" none "9" .err .err _).2 (by decide) rfl rfl⟩

/-- C6: for every send that proceeds past its preconditions (and whose
requests are actually issued), the prompt sent to the main completion call
is the chosen system message followed by the target session's full message
history in chronological order, ending with the just-appended user message;
the system message is the retrieval-context instruction built from the
joined chunks when a retriever is present and yields non-empty context, and
the fixed persona instruction otherwise. -/
theorem c6_prompt_assembly (msg : String) (ragDocs : Option (List String))
    (newId : String) (titleOut mainOut : ApiResult) (st : AppState)
    (prior : List Message)
    (h1 : jsTrim msg ≠ "") (h2 : st.isLoading = false) (h3 : st.apiKey ≠ "")
    (hprior : priorMessagesOf st = some prior)
    (ht : prior = [] → titleOut ≠ .err) :
    (executeSend msg ragDocs newId titleOut mainOut st).map (·.promptSent) =
      some (some (chosenSystemMessage ragDocs ::
        (prior ++ [⟨.user, msg⟩]))) := by
  cases ha : st.activeChatId with
  | none =>
      rw [priorMessagesOf_noActive ha] at hprior
      have hp : prior = [] := by simpa using hprior.symm
      subst hp
      rw [executeSend_noActive msg ragDocs newId titleOut mainOut st h1 h2 h3 ha]
      simp only [Option.map_some']
      rw [executeSendRequests_promptSent _ _ _ _ _ _ (fun _ => ht rfl)]
      rfl
  | some aid =>
      rw [priorMessagesOf_active ha] at hprior
      cases hf : st.chats.find? (fun c => c.id = aid) with
      | none => rw [hf] at hprior; simp at hprior
      | some cc =>
          rw [hf] at hprior
          have hcc : cc.messages = prior := by simpa using hprior
          rw [executeSend_active msg ragDocs newId titleOut mainOut st aid cc
            h1 h2 h3 ha hf]
          simp only [Option.map_some']
          have hreq : ({ cc with messages := cc.messages ++ [⟨Role.user, msg⟩] } :
              Chat).messages.length = 1 → titleOut ≠ .err := by
            intro hl
            apply ht
            rw [← hcc]
            simpa using hl
          rw [executeSendRequests_promptSent _ _ _ _ _ _ hreq, hcc]

/-- Witness for C6 at a concrete state with prior history and a retriever
returning two chunks. -/
theorem c6_prompt_assembly_witness :
    (executeSend "hi" (some ["alpha", "beta"]) "9" (.ok (some "T"))
        (.ok (some "R"))
        ⟨[⟨"1", "t", [⟨.user, "a"⟩, ⟨.assistant, "b"⟩]⟩], some "1", "",
          false, "k"⟩).map (·.promptSent) =
      some (some (chosenSystemMessage (some ["alpha", "beta"]) ::
        ([⟨.user, "a"⟩, ⟨.assistant, "b"⟩] ++ [⟨.user, "hi"⟩]))) :=
  c6_prompt_assembly "hi" (some ["alpha", "beta"]) "9" (.ok (some "T"))
    (.ok (some "R"))
    ⟨[⟨"1", "t", [⟨.user, "a"⟩, ⟨.assistant, "b"⟩]⟩], some "1", "", false, "k"⟩
    [⟨.user, "a"⟩, ⟨.assistant, "b"⟩]
    (by decide) rfl (by decide) (by decide) (by decide)

/-- C3: for every send that proceeds past its preconditions and whose main
completion call fails, the target session gains exactly the user message and
one assistant message equal to the fixed fallback text, the fallback text is
forwarded to `speak`, and the in-flight flag returns to false. -/
theorem c3_failure_fallback (msg : String) (ragDocs : Option (List String))
    (newId : String) (titleOut : ApiResult) (st : AppState)
    (prior : List Message)
    (h1 : jsTrim msg ≠ "") (h2 : st.isLoading = false) (h3 : st.apiKey ≠ "")
    (hprior : priorMessagesOf st = some prior) :
    (executeSend msg ragDocs newId titleOut .err st).map
        (fun tr => (chatMessages tr.state.chats (targetIdOf st newId),
          tr.speakCalls, tr.state.isLoading)) =
      some (some (prior ++
          [⟨.user, msg⟩, ⟨.assistant, errorMessageContent⟩]),
        [errorMessageContent], false) := by
  cases ha : st.activeChatId with
  | none =>
      rw [priorMessagesOf_noActive ha] at hprior
      have hp : prior = [] := by simpa using hprior.symm
      subst hp
      rw [executeSend_noActive msg ragDocs newId titleOut .err st h1 h2 h3 ha,
        targetIdOf_noActive newId ha]
      obtain ⟨e1, e2, e3⟩ := executeSendRequests_mainErr_trace
        ⟨newId, "New Chat", [⟨Role.user, msg⟩]⟩
        (chosenSystemMessage ragDocs :: [⟨Role.user, msg⟩]) titleOut
        { st with
          input := ""
          isLoading := true
          activeChatId := some newId
          chats := ⟨newId, "New Chat", [⟨Role.user, msg⟩]⟩ :: st.chats }
        ragDocs.isSome [⟨Role.user, msg⟩] newId rfl
        (by simp [chatMessages, List.find?_cons])
      simp only [Option.map_some']
      simp [e1, e2, e3]
  | some aid =>
      rw [priorMessagesOf_active ha] at hprior
      cases hf : st.chats.find? (fun c => c.id = aid) with
      | none => rw [hf] at hprior; simp at hprior
      | some cc =>
          rw [hf] at hprior
          have hcc : cc.messages = prior := by simpa using hprior
          have hccid : cc.id = aid := by simpa using List.find?_some hf
          subst hcc
          rw [executeSend_active msg ragDocs newId titleOut .err st aid cc
            h1 h2 h3 ha hf, targetIdOf_active newId ha]
          obtain ⟨e1, e2, e3⟩ := executeSendRequests_mainErr_trace
            { cc with messages := cc.messages ++ [⟨Role.user, msg⟩] }
            (chosenSystemMessage ragDocs ::
              (cc.messages ++ [⟨Role.user, msg⟩])) titleOut
            { st with
              input := ""
              isLoading := true
              chats := st.chats.map (fun c =>
                if c.id = aid then
                  { c with messages := cc.messages ++ [⟨Role.user, msg⟩] }
                else c) }
            ragDocs.isSome (cc.messages ++ [⟨Role.user, msg⟩]) aid hccid
            (chatMessages_setMessages aid
              (cc.messages ++ [⟨Role.user, msg⟩]) st.chats cc hf)
          simp only [Option.map_some']
          simp [e1, e2, e3]

/-- Witness for C3: a failing main call on a chat with prior history. -/
theorem c3_failure_fallback_witness :
    (executeSend "hi" none "9" (.ok (some "T")) .err
        ⟨[⟨"1", "t", [⟨.user, "a"⟩, ⟨.assistant, "b"⟩]⟩], some "1", "",
          false, "k"⟩).map
        (fun tr => (chatMessages tr.state.chats
          (targetIdOf ⟨[⟨"1", "t", [⟨.user, "a"⟩, ⟨.assistant, "b"⟩]⟩],
            some "1", "", false, "k"⟩ "9"),
          tr.speakCalls, tr.state.isLoading)) =
      some (some ([⟨.user, "a"⟩, ⟨.assistant, "b"⟩] ++
          [⟨.user, "hi"⟩, ⟨.assistant, errorMessageContent⟩]),
        [errorMessageContent], false) :=
  c3_failure_fallback "hi" none "9" (.ok (some "T"))
    ⟨[⟨"1", "t", [⟨.user, "a"⟩, ⟨.assistant, "b"⟩]⟩], some "1", "", false, "k"⟩
    [⟨.user, "a"⟩, ⟨.assistant, "b"⟩]
    (by decide) rfl (by decide) (by decide)

/-- C10: for every send whose main completion call succeeds but returns a
null or empty assistant content, no assistant message is appended (the
target session gains only the user message), nothing is forwarded to
`speak`, no fallback is produced, and the in-flight flag still returns to
false. -/
theorem c10_falsy_reply (msg : String) (ragDocs : Option (List String))
    (newId : String) (titleOut mainOut : ApiResult) (st : AppState)
    (prior : List Message)
    (h1 : jsTrim msg ≠ "") (h2 : st.isLoading = false) (h3 : st.apiKey ≠ "")
    (hprior : priorMessagesOf st = some prior)
    (ht : prior = [] → titleOut ≠ .err)
    (hmain : mainOut = .ok none ∨ mainOut = .ok (some "")) :
    (executeSend msg ragDocs newId titleOut mainOut st).map
        (fun tr => (chatMessages tr.state.chats (targetIdOf st newId),
          tr.speakCalls, tr.state.isLoading, tr.mainCallMade)) =
      some (some (prior ++ [⟨.user, msg⟩]), [], false, true) := by
  cases ha : st.activeChatId with
  | none =>
      rw [priorMessagesOf_noActive ha] at hprior
      have hp : prior = [] := by simpa using hprior.symm
      subst hp
      rw [executeSend_noActive msg ragDocs newId titleOut mainOut st h1 h2 h3 ha,
        targetIdOf_noActive newId ha]
      obtain ⟨e1, e2, e3, e4⟩ := executeSendRequests_falsyContent_trace
        ⟨newId, "New Chat", [⟨Role.user, msg⟩]⟩
        (chosenSystemMessage ragDocs :: [⟨Role.user, msg⟩]) titleOut mainOut
        { st with
          input := ""
          isLoading := true
          activeChatId := some newId
          chats := ⟨newId, "New Chat", [⟨Role.user, msg⟩]⟩ :: st.chats }
        ragDocs.isSome [⟨Role.user, msg⟩] newId rfl
        (by simp [chatMessages, List.find?_cons])
        (fun _ => ht rfl) hmain
      simp only [Option.map_some']
      simp [e1, e2, e3, e4]
  | some aid =>
      rw [priorMessagesOf_active ha] at hprior
      cases hf : st.chats.find? (fun c => c.id = aid) with
      | none => rw [hf] at hprior; simp at hprior
      | some cc =>
          rw [hf] at hprior
          have hcc : cc.messages = prior := by simpa using hprior
          have hccid : cc.id = aid := by simpa using List.find?_some hf
          subst hcc
          rw [executeSend_active msg ragDocs newId titleOut mainOut st aid cc
            h1 h2 h3 ha hf, targetIdOf_active newId ha]
          obtain ⟨e1, e2, e3, e4⟩ := executeSendRequests_falsyContent_trace
            { cc with messages := cc.messages ++ [⟨Role.user, msg⟩] }
            (chosenSystemMessage ragDocs ::
              (cc.messages ++ [⟨Role.user, msg⟩])) titleOut mainOut
            { st with
              input := ""
              isLoading := true
              chats := st.chats.map (fun c =>
                if c.id = aid then
                  { c with messages := cc.messages ++ [⟨Role.user, msg⟩] }
                else c) }
            ragDocs.isSome (cc.messages ++ [⟨Role.user, msg⟩]) aid hccid
            (chatMessages_setMessages aid
              (cc.messages ++ [⟨Role.user, msg⟩]) st.chats cc hf)
            (by
              intro hl
              apply ht
              simpa using hl) hmain
          simp only [Option.map_some']
          simp [e1, e2, e3, e4]

/-- Witness for C10: a successful main call with empty content on a fresh
chat first exchange. -/
theorem c10_falsy_reply_witness :
    (executeSend "hi" none "9" (.ok (some "T")) (.ok (some ""))
        ⟨[⟨"1", "New Chat", []⟩], some "1", "", false, "k"⟩).map
        (fun tr => (chatMessages tr.state.chats
          (targetIdOf ⟨[⟨"1", "New Chat", []⟩], some "1", "", false, "k"⟩ "9"),
          tr.speakCalls, tr.state.isLoading, tr.mainCallMade)) =
      some (some ([] ++ [⟨.user, "hi"⟩]), [], false, true) :=
  c10_falsy_reply "hi" none "9" (.ok (some "T")) (.ok (some ""))
    ⟨[⟨"1", "New Chat", []⟩], some "1", "", false, "k"⟩ []
    (by decide) rfl (by decide) (by decide)
    (fun _ h => by cases h) (Or.inr rfl)

/-- C1 counterexample: at a session's first exchange, when the title
request throws and the main model call would have succeeded with "Hello!",
the main completion request is never issued and the fixed fallback is
appended instead of the reply — so a title failure does abort the main
request, contrary to the claim. -/
theorem c1_title_counterexample :
    (executeSend "hi" none "7" .err (.ok (some "Hello!"))
        ⟨[⟨"1", "New Chat", []⟩], some "1", "hi", false, "k"⟩).map
        (fun tr => (tr.titleCallMade, tr.mainCallMade, tr.promptSent,
          chatMessages tr.state.chats "1")) =
      some (true, false, none,
        some [⟨.user, "hi"⟩, ⟨.assistant, errorMessageContent⟩]) := by
  decide

/-- C1 (amended): at every first exchange (message count 1 after the user
message is appended) the separate title request is issued; on its success
the quote-stripped result renames the session and the main request
proceeds; but the title sub-request is not independently failable: on its
failure the main completion request is never issued and the shared catch
appends the fixed fallback reply instead. -/
theorem c1_title_behaviour (msg : String) (ragDocs : Option (List String))
    (newId : String) (titleOut mainOut : ApiResult) (st : AppState)
    (c : Option String)
    (h1 : jsTrim msg ≠ "") (h2 : st.isLoading = false) (h3 : st.apiKey ≠ "")
    (hprior : priorMessagesOf st = some []) :
    ((executeSend msg ragDocs newId titleOut mainOut st).map
        (·.titleCallMade) = some true) ∧
      (titleOut = .ok c →
        (executeSend msg ragDocs newId titleOut mainOut st).map
            (fun tr => (chatTitle tr.state.chats (targetIdOf st newId),
              tr.mainCallMade)) =
          some (some (titleFromResponse c), true)) ∧
      (titleOut = .err →
        (executeSend msg ragDocs newId titleOut mainOut st).map
            (fun tr => (tr.mainCallMade, tr.promptSent,
              chatMessages tr.state.chats (targetIdOf st newId))) =
          some (false, none,
            some [⟨.user, msg⟩, ⟨.assistant, errorMessageContent⟩])) := by
  cases ha : st.activeChatId with
  | none =>
      refine ⟨?_, ?_, ?_⟩
      · rw [executeSend_noActive msg ragDocs newId titleOut mainOut st
          h1 h2 h3 ha]
        simp only [Option.map_some']
        rw [executeSendRequests_titleMade
          ⟨newId, "New Chat", [⟨Role.user, msg⟩]⟩
          (chosenSystemMessage ragDocs :: [⟨Role.user, msg⟩]) titleOut mainOut
          { st with
            input := ""
            isLoading := true
            activeChatId := some newId
            chats := ⟨newId, "New Chat", [⟨Role.user, msg⟩]⟩ :: st.chats }
          ragDocs.isSome rfl]
      · intro hc
        subst hc
        rw [executeSend_noActive msg ragDocs newId (.ok c) mainOut st
          h1 h2 h3 ha, targetIdOf_noActive newId ha]
        obtain ⟨f1, f2⟩ := executeSendRequests_titleOk
          ⟨newId, "New Chat", [⟨Role.user, msg⟩]⟩
          (chosenSystemMessage ragDocs :: [⟨Role.user, msg⟩]) c mainOut
          { st with
            input := ""
            isLoading := true
            activeChatId := some newId
            chats := ⟨newId, "New Chat", [⟨Role.user, msg⟩]⟩ :: st.chats }
          ragDocs.isSome ⟨newId, "New Chat", [⟨Role.user, msg⟩]⟩ newId rfl rfl
          (by simp [List.find?_cons])
        simp only [Option.map_some']
        simp [f1, f2]
      · intro he
        subst he
        rw [executeSend_noActive msg ragDocs newId .err mainOut st
          h1 h2 h3 ha, targetIdOf_noActive newId ha]
        obtain ⟨g1, g2, g3, g4, g5⟩ := executeSendRequests_titleErr
          ⟨newId, "New Chat", [⟨Role.user, msg⟩]⟩
          (chosenSystemMessage ragDocs :: [⟨Role.user, msg⟩]) mainOut
          { st with
            input := ""
            isLoading := true
            activeChatId := some newId
            chats := ⟨newId, "New Chat", [⟨Role.user, msg⟩]⟩ :: st.chats }
          ragDocs.isSome [⟨Role.user, msg⟩] newId rfl rfl
          (by simp [chatMessages, List.find?_cons])
        simp only [Option.map_some']
        simp [g1, g2, g3]
  | some aid =>
      rw [priorMessagesOf_active ha] at hprior
      cases hf : st.chats.find? (fun ch => ch.id = aid) with
      | none => rw [hf] at hprior; simp at hprior
      | some cc =>
          rw [hf] at hprior
          have hcc0 : cc.messages = [] := by simpa using hprior
          have hccid : cc.id = aid := by simpa using List.find?_some hf
          have hl : ({ cc with
              messages := cc.messages ++ [⟨Role.user, msg⟩] } :
                Chat).messages.length = 1 := by
            simp [hcc0]
          refine ⟨?_, ?_, ?_⟩
          · rw [executeSend_active msg ragDocs newId titleOut mainOut st aid
              cc h1 h2 h3 ha hf]
            simp only [Option.map_some']
            rw [executeSendRequests_titleMade _ _ _ _ _ _ hl]
          · intro hc
            subst hc
            rw [executeSend_active msg ragDocs newId (.ok c) mainOut st aid
              cc h1 h2 h3 ha hf, targetIdOf_active newId ha]
            obtain ⟨f1, f2⟩ := executeSendRequests_titleOk
              { cc with messages := cc.messages ++ [⟨Role.user, msg⟩] }
              (chosenSystemMessage ragDocs ::
                (cc.messages ++ [⟨Role.user, msg⟩])) c mainOut
              { st with
                input := ""
                isLoading := true
                chats := st.chats.map (fun ch =>
                  if ch.id = aid then
                    { ch with messages := cc.messages ++ [⟨Role.user, msg⟩] }
                  else ch) }
              ragDocs.isSome
              { cc with messages := cc.messages ++ [⟨Role.user, msg⟩] }
              aid hccid hl
              (by
                rw [find?_map_id_preserving aid _
                  (fun ch => by by_cases h : ch.id = aid <;> simp [h])
                  st.chats, hf]
                simp [hccid])
            simp only [Option.map_some']
            simp [f1, f2]
          · intro he
            subst he
            rw [executeSend_active msg ragDocs newId .err mainOut st aid cc
              h1 h2 h3 ha hf, targetIdOf_active newId ha]
            obtain ⟨g1, g2, g3, g4, g5⟩ := executeSendRequests_titleErr
              { cc with messages := cc.messages ++ [⟨Role.user, msg⟩] }
              (chosenSystemMessage ragDocs ::
                (cc.messages ++ [⟨Role.user, msg⟩])) mainOut
              { st with
                input := ""
                isLoading := true
                chats := st.chats.map (fun ch =>
                  if ch.id = aid then
                    { ch with messages := cc.messages ++ [⟨Role.user, msg⟩] }
                  else ch) }
              ragDocs.isSome (cc.messages ++ [⟨Role.user, msg⟩]) aid hccid hl
              (chatMessages_setMessages aid
                (cc.messages ++ [⟨Role.user, msg⟩]) st.chats cc hf)
            simp only [Option.map_some']
            simp only [g1, g2, g3]
            simp [hcc0]

/-- Witness for C1 at a concrete first exchange, applied at a successful
and at a failing title request. -/
theorem c1_title_behaviour_witness :
    ((executeSend "hi" none "7" (.ok (some "My Title")) (.ok (some "Hello!"))
        ⟨[⟨"1", "New Chat", []⟩], some "1", "", false, "k"⟩).map
        (·.titleCallMade) = some true) ∧
      ((executeSend "hi" none "7" (.ok (some "My Title")) (.ok (some "Hello!"))
          ⟨[⟨"1", "New Chat", []⟩], some "1", "", false, "k"⟩).map
          (fun tr => (chatTitle tr.state.chats
            (targetIdOf ⟨[⟨"1", "New Chat", []⟩], some "1", "", false, "k"⟩
              "7"), tr.mainCallMade)) =
        some (some (titleFromResponse (some "My Title")), true)) ∧
      ((executeSend "hi" none "7" .err (.ok (some "Hello!"))
          ⟨[⟨"1", "New Chat", []⟩], some "1", "", false, "k"⟩).map
          (fun tr => (tr.mainCallMade, tr.promptSent,
            chatMessages tr.state.chats
              (targetIdOf ⟨[⟨"1", "New Chat", []⟩], some "1", "", false, "k"⟩
                "7"))) =
        some (false, none,
          some [⟨.user, "hi"⟩, ⟨.assistant, errorMessageContent⟩])) :=
  ⟨(c1_title_behaviour "hi" none "7" (.ok (some "My Title"))
      (.ok (some "Hello!"))
      ⟨[⟨"1", "New Chat", []⟩], some "1", "", false, "k"⟩ (some "My Title")
      (by decide) rfl (by decide) (by decide)).1,
   (c1_title_behaviour "hi" none "7" (.ok (some "My Title"))
      (.ok (some "Hello!"))
      ⟨[⟨"1", "New Chat", []⟩], some "1", "", false, "k"⟩ (some "My Title")
      (by decide) rfl (by decide) (by decide)).2.1 rfl,
   (c1_title_behaviour "hi" none "7" .err (.ok (some "Hello!"))
      ⟨[⟨"1", "New Chat", []⟩], some "1", "", false, "k"⟩ none
      (by decide) rfl (by decide) (by decide)).2.2 rfl⟩

/-- C9: a finalized utterance ending in whitespace plus "send"/"sent"
(case-insensitive) has the trailing command word stripped and the remainder
trimmed; when the remainder is non-empty it is scheduled as the voice
command (submitted to `executeSend` exactly as the typed Enter path) and
the utterance start index advances to the end of the result list, so
subsequent speech starts a fresh buffer. -/
theorem c9_voice_send (results : List (String × Bool)) (startIdx : Nat)
    (t : String) (stripped : String) (ragDocs : Option (List String))
    (newId : String) (titleOut mainOut : ApiResult) (st : AppState)
    (hlast : results.getLast? = some (t, true))
    (hstrip : stripSendCommand
      (String.join ((results.drop startIdx).map (·.1))) = some stripped)
    (hne : jsTrim stripped ≠ "") :
    onResult results startIdx =
      (String.join ((results.drop startIdx).map (·.1)),
        some (jsTrim stripped), results.length) ∧
      voiceCommandEffect (some (jsTrim stripped)) ragDocs newId titleOut
        mainOut st =
        some (handleSend (jsTrim stripped) ragDocs newId titleOut mainOut
          st) := by
  refine ⟨?_, rfl⟩
  rw [List.map_drop] at hstrip
  simp [onResult, hlast, hstrip, hne]

/-- Witness for C9 on the utterance "what is the weather send". -/
theorem c9_voice_send_witness :
    onResult [("what is the weather send", true)] 0 =
      ("what is the weather send", some (jsTrim "what is the weather"), 1) ∧
      voiceCommandEffect (some (jsTrim "what is the weather")) none "9"
        .err .err ⟨[], none, "", false, "k"⟩ =
        some (handleSend (jsTrim "what is the weather") none "9" .err .err
          ⟨[], none, "", false, "k"⟩) :=
  c9_voice_send [("what is the weather send", true)] 0
    "what is the weather send" "what is the weather" none "9" .err .err
    ⟨[], none, "", false, "k"⟩ rfl (by decide) (by decide)

end ZkulikBot
